import Mathlib

/-!
Shallow embedding of `assert_cli` (src/src/assert.rs): the `Assert` fluent
builder, the `OutputAssertionBuilder` sub-builder, and the evaluation part of
`Assert::execute`.  Process spawning is external: the evaluation is modelled
as a function of the captured `ProcessOutput`.  The `OutputAssertion` record
and `OutputKind` enum are declared in assert.rs's companion module `output`;
their fields are taken from the construction sites in assert.rs.  Paths are
modelled as strings (no path arithmetic occurs), exit codes as `Int`.
-/

/-- `OutputKind` from the `output` module: which captured stream a predicate
tests (referenced in assert.rs as `OutputKind::StdOut` / `OutputKind::StdErr`). -/
inductive OutputKind where
  | StdOut : OutputKind
  | StdErr : OutputKind
deriving DecidableEq, Repr

/-- `OutputAssertion` from the `output` module, with exactly the fields set at
the construction sites in `OutputAssertionBuilder::contains` / `is`. -/
structure OutputAssertion where
  expect : String
  fuzzy : Bool
  expected_result : Bool
  kind : OutputKind
deriving DecidableEq, Repr

/-- The `Assert` struct (assert.rs lines 11-17). -/
structure Assert where
  cmd : List String
  current_dir : Option String
  expect_success : Option Bool
  expect_exit_code : Option Int
  expect_output : List OutputAssertion
deriving DecidableEq, Repr

/-- `Default for Assert` (assert.rs lines 19-33): `cargo run --`, expecting
successful execution. -/
def Assert.default : Assert :=
  { cmd := ["cargo", "run", "--"]
    current_dir := none
    expect_success := some true
    expect_exit_code := none
    expect_output := [] }

/-- `Assert::main_binary` (assert.rs lines 39-41). -/
def Assert.main_binary : Assert :=
  Assert.default

/-- `Assert::cargo_binary` (assert.rs lines 46-52). -/
def Assert.cargo_binary (name : String) : Assert :=
  { Assert.default with cmd := ["cargo", "run", "--bin", name, "--"] }

/-- `Assert::command` (assert.rs lines 66-71): arbitrary argv, other fields
from `Default`. -/
def Assert.command (cmd : List String) : Assert :=
  { Assert.default with cmd := cmd }

/-- `Assert::with_args` (assert.rs lines 85-88). -/
def Assert.with_args (a : Assert) (args : List String) : Assert :=
  { a with cmd := a.cmd ++ args }

/-- `Assert::current_dir` (assert.rs lines 103-106); primed because the Rust
method shares its name with the struct field. -/
def Assert.current_dir' (a : Assert) (dir : String) : Assert :=
  { a with current_dir := some dir }

/-- `Assert::and` (assert.rs lines 119-121): identity. -/
def Assert.and (a : Assert) : Assert :=
  a

/-- `Assert::succeeds` (assert.rs lines 133-137). -/
def Assert.succeeds (a : Assert) : Assert :=
  { a with expect_exit_code := none, expect_success := some true }

/-- `Assert::fails` (assert.rs lines 155-158). -/
def Assert.fails (a : Assert) : Assert :=
  { a with expect_success := some false }

/-- `Assert::fails_with` (assert.rs lines 173-177). -/
def Assert.fails_with (a : Assert) (expect_exit_code : Int) : Assert :=
  { a with expect_success := some false, expect_exit_code := some expect_exit_code }

/-- The `OutputAssertionBuilder` struct (assert.rs lines 296-300). -/
structure OutputAssertionBuilder where
  assertion : Assert
  kind : OutputKind
  expected_result : Bool
deriving DecidableEq, Repr

/-- `Assert::stdout` (assert.rs lines 190-196). -/
def Assert.stdout (a : Assert) : OutputAssertionBuilder :=
  { assertion := a, kind := OutputKind.StdOut, expected_result := true }

/-- `Assert::stderr` (assert.rs lines 211-217). -/
def Assert.stderr (a : Assert) : OutputAssertionBuilder :=
  { assertion := a, kind := OutputKind.StdErr, expected_result := true }

/-- `OutputAssertionBuilder::not` (assert.rs lines 314-317). -/
def OutputAssertionBuilder.not (b : OutputAssertionBuilder) : OutputAssertionBuilder :=
  { b with expected_result := !b.expected_result }

/-- `OutputAssertionBuilder::contains` (assert.rs lines 330-338): push a fuzzy
predicate onto the parent's `expect_output`, return the parent. -/
def OutputAssertionBuilder.contains (b : OutputAssertionBuilder) (output : String) : Assert :=
  { b.assertion with
    expect_output := b.assertion.expect_output ++
      [{ expect := output, fuzzy := true, expected_result := b.expected_result,
         kind := b.kind }] }

/-- `OutputAssertionBuilder::is` (assert.rs lines 351-359): push an exact
predicate onto the parent's `expect_output`, return the parent. -/
def OutputAssertionBuilder.is (b : OutputAssertionBuilder) (output : String) : Assert :=
  { b.assertion with
    expect_output := b.assertion.expect_output ++
      [{ expect := output, fuzzy := false, expected_result := b.expected_result,
         kind := b.kind }] }

/-- `OutputAssertionBuilder::doesnt_contain` (assert.rs lines 372-374). -/
def OutputAssertionBuilder.doesnt_contain (b : OutputAssertionBuilder) (output : String) : Assert :=
  b.not.contains output

/-- `OutputAssertionBuilder::isnt` (assert.rs lines 387-389). -/
def OutputAssertionBuilder.isnt (b : OutputAssertionBuilder) (output : String) : Assert :=
  b.not.is output

/-- The captured result of the spawned process, at the interface the spec
gives for the process boundary: both streams (already lossily decoded to
text), whether the exit status denotes success, and the optional numeric
exit code (`none` when the process terminated abnormally). -/
structure ProcessOutput where
  stdout : String
  stderr : String
  status_success : Bool
  status_code : Option Int
deriving DecidableEq, Repr

/-- `l` starts with `p` (character-list helper for substring containment). -/
def startsWithL : List Char → List Char → Bool
  | [], _ => true
  | _ :: _, [] => false
  | a :: as, b :: bs => a == b && startsWithL as bs

/-- `needle` occurs contiguously inside `haystack` (character-list helper). -/
def containsL (needle : List Char) : List Char → Bool
  | [] => startsWithL needle []
  | c :: t => startsWithL needle (c :: t) || containsL needle t

/-- Rust `str::contains`: substring containment of `needle` in `haystack`. -/
def strContains (haystack needle : String) : Bool :=
  containsL needle.toList haystack.toList

/-- The error taxonomy consumed by the engine (module `errors`, absent from
src/); the payload of each variant is fixed by the `bail!` construction sites
in assert.rs and by the spec's external-interface section. -/
inductive ErrorKind where
  | StatusMismatch (cmd : List String) (expected : Bool) (out err : String)
  | ExitCodeMismatch (cmd : List String) (expected actual : Option Int) (out err : String)
  | OutputMismatch (cmd : List String) (kind : OutputKind) (expect : String)
      (fuzzy expected_result : Bool) (out err : String)
deriving DecidableEq, Repr

/-- The stream an `OutputAssertion` is bound to. -/
def OutputAssertion.selectStream (a : OutputAssertion) (output : ProcessOutput) : String :=
  match a.kind with
  | OutputKind.StdOut => output.stdout
  | OutputKind.StdErr => output.stderr

/-- The raw boolean outcome of one predicate: substring containment when
`fuzzy`, exact equality otherwise. -/
def OutputAssertion.rawOutcome (a : OutputAssertion) (output : ProcessOutput) : Bool :=
  if a.fuzzy then strContains (a.selectStream output) a.expect
  else a.selectStream output == a.expect

/-- Modelled from the spec: `OutputAssertion::execute` lives in the `output`
module, which is absent from src/ (assert.rs calls `a.execute(&output,
&self.cmd)`).  Per spec section 4.3 step 5: compute the raw outcome of the
predicate against its selected stream, compare it to `expected_result`, and
on mismatch fail with an `OutputMismatch` diagnostic carrying argv, the
predicate's kind/text/fuzzy/expected-result, and both captured streams. -/
def OutputAssertion.execute (a : OutputAssertion) (output : ProcessOutput)
    (cmd : List String) : Except ErrorKind Unit :=
  if a.rawOutcome output == a.expected_result then Except.ok ()
  else Except.error (ErrorKind.OutputMismatch cmd a.kind a.expect a.fuzzy
    a.expected_result output.stdout output.stderr)

/-- The `expect_success` check of `Assert::execute` (assert.rs lines 242-253). -/
def Assert.statusCheck (a : Assert) (output : ProcessOutput) : Except ErrorKind Unit :=
  match a.expect_success with
  | some expect_success =>
      if expect_success != output.status_success then
        Except.error (ErrorKind.StatusMismatch a.cmd expect_success
          output.stdout output.stderr)
      else Except.ok ()
  | none => Except.ok ()

/-- The `expect_exit_code` check of `Assert::execute` (assert.rs lines 255-266). -/
def Assert.exitCodeCheck (a : Assert) (output : ProcessOutput) : Except ErrorKind Unit :=
  if a.expect_exit_code.isSome && a.expect_exit_code != output.status_code then
    Except.error (ErrorKind.ExitCodeMismatch a.cmd a.expect_exit_code
      output.status_code output.stdout output.stderr)
  else Except.ok ()

/-- The predicate pass of `Assert::execute` (assert.rs lines 268-271):
`self.expect_output.iter().map(|a| a.execute(&output, &self.cmd)).collect::<Result<Vec<()>>>()?`.
Collecting an iterator of `Result`s into a `Result` short-circuits at the
first `Err`, so this is a fail-fast left-to-right fold. -/
def checkOutputs (output : ProcessOutput) (cmd : List String) :
    List OutputAssertion → Except ErrorKind Unit
  | [] => Except.ok ()
  | a :: rest =>
    match a.execute output cmd with
    | Except.ok _ => checkOutputs output cmd rest
    | Except.error e => Except.error e

/-- The evaluation part of `Assert::execute` (assert.rs lines 242-273), as a
function of the captured process output: status check, then exit-code check,
then the fail-fast predicate pass.  (The spawn itself, lines 232-240, is the
external process boundary.) -/
def Assert.executeWith (a : Assert) (output : ProcessOutput) : Except ErrorKind Unit :=
  match a.statusCheck output with
  | Except.error e => Except.error e
  | Except.ok _ =>
    match a.exitCodeCheck output with
    | Except.error e => Except.error e
    | Except.ok _ => checkOutputs output a.cmd a.expect_output

/-- The executable `Assert::execute` dereferences: `&self.cmd[0]`
(assert.rs line 232).  `none` exactly when that indexing would panic. -/
def Assert.executable? (a : Assert) : Option String :=
  a.cmd.head?

/-- `n` applications of `OutputAssertionBuilder::not`. -/
def iterateNot : Nat → OutputAssertionBuilder → OutputAssertionBuilder
  | 0, b => b
  | n + 1, b => iterateNot n b.not

/-- Skipping predicates whose raw outcome matches their expected result: the
fail-fast pass over `pre ++ rest` behaves like the pass over `rest` when every
predicate in `pre` passes. -/
theorem checkOutputs_append_ok (output : ProcessOutput) (cmd : List String)
    (pre : List OutputAssertion)
    (hpre : ∀ q ∈ pre, q.rawOutcome output = q.expected_result)
    (rest : List OutputAssertion) :
    checkOutputs output cmd (pre ++ rest) = checkOutputs output cmd rest := by
  induction pre with
  | nil => rfl
  | cons q qs ih =>
    have hq : q.rawOutcome output = q.expected_result := hpre q (List.mem_cons_self q qs)
    simp only [List.cons_append, checkOutputs, OutputAssertion.execute, hq, beq_self_eq_true,
      if_pos]
    exact ih fun r hr => hpre r (List.mem_cons_of_mem q hr)

/-- `iterateNot` only touches the `expected_result` field, flipping it once
per application. -/
theorem iterateNot_eq (n : Nat) (b : OutputAssertionBuilder) :
    iterateNot n b =
      { b with expected_result :=
          if n % 2 = 0 then b.expected_result else !b.expected_result } := by
  induction n generalizing b with
  | zero => rfl
  | succ m ih =>
    rw [iterateNot, ih]
    rcases Nat.mod_two_eq_zero_or_one m with h | h
    · have h2 : (m + 1) % 2 = 1 := by omega
      simp [h, h2, OutputAssertionBuilder.not]
    · have h2 : (m + 1) % 2 = 0 := by omega
      simp [h, h2, OutputAssertionBuilder.not]

/-- C1: for every `Assert` and exit code `n`, `fails_with n` yields
`expect_success = some false` and `expect_exit_code = some n`, whatever those
fields held before, and equals `fails()` followed by forcing
`expect_exit_code := some n`. -/
theorem C1_fails_with_overrides (a : Assert) (n : Int) :
    (a.fails_with n).expect_success = some false ∧
    (a.fails_with n).expect_exit_code = some n ∧
    a.fails_with n = { a.fails with expect_exit_code := some n } :=
  ⟨rfl, rfl, rfl⟩

/-- C2: when the status and exit-code checks pass and `expect_output` splits
as `pre ++ p :: rest` with every predicate of `pre` passing and `p` failing,
`executeWith` returns exactly the `OutputMismatch` diagnostic for `p` — built
from `p`'s kind, text, fuzziness and expected result alone — independently of
`rest`, whose predicates are never evaluated. -/
theorem C2_execute_fail_fast (a : Assert) (output : ProcessOutput)
    (pre : List OutputAssertion) (p : OutputAssertion) (rest : List OutputAssertion)
    (hsplit : a.expect_output = pre ++ p :: rest)
    (hpre : ∀ q ∈ pre, q.rawOutcome output = q.expected_result)
    (hfail : p.rawOutcome output ≠ p.expected_result)
    (hstatus : a.statusCheck output = Except.ok ())
    (hexit : a.exitCodeCheck output = Except.ok ()) :
    a.executeWith output = Except.error (ErrorKind.OutputMismatch a.cmd p.kind
      p.expect p.fuzzy p.expected_result output.stdout output.stderr) := by
  unfold Assert.executeWith
  rw [hstatus, hexit, hsplit, checkOutputs_append_ok output a.cmd pre hpre]
  have hb : (p.rawOutcome output == p.expected_result) = false := by
    simpa using hfail
  simp [checkOutputs, OutputAssertion.execute, hb]

/-- C2 witness: a concrete `Assert` with two stdout predicates where the
first fails on the captured output; only the first one's text appears in the
diagnostic. -/
theorem C2_execute_fail_fast_witness :
    (((Assert.command ["echo"]).stdout.contains "x").stdout.contains "y").executeWith
        ⟨"42", "", true, some 0⟩ =
      Except.error (ErrorKind.OutputMismatch ["echo"] OutputKind.StdOut "x" true true
        "42" "") :=
  C2_execute_fail_fast _ ⟨"42", "", true, some 0⟩ []
    { expect := "x", fuzzy := true, expected_result := true, kind := OutputKind.StdOut }
    [{ expect := "y", fuzzy := true, expected_result := true, kind := OutputKind.StdOut }]
    rfl (by simp) (by decide) rfl rfl

/-- C3 counterexample: `Assert::command` accepts an arbitrary argv, so the
construction entry points do not all produce a non-empty `cmd` — with the
empty slice, `cmd` is empty and the `cmd[0]` access of `execute()` is
undefined. -/
theorem C3_cmd_nonempty_cex :
    (Assert.command []).cmd = [] ∧ (Assert.command []).executable? = none :=
  ⟨rfl, rfl⟩

/-- C3 (amended): `cmd` is non-empty for `default`/`main_binary`/
`cargo_binary`, and for `command l` whenever the supplied argv `l` is
non-empty; every mutator and finalizer preserves non-emptiness of `cmd`; and
a non-empty `cmd` makes the `cmd[0]` access of `execute()` defined. -/
theorem C3_cmd_nonempty_amended (name : String) (l : List String) (hl : l ≠ [])
    (a : Assert) (ha : a.cmd ≠ []) (args : List String) (dir text : String) (n : Int) :
    Assert.default.cmd ≠ [] ∧
    Assert.main_binary.cmd ≠ [] ∧
    (Assert.cargo_binary name).cmd ≠ [] ∧
    (Assert.command l).cmd ≠ [] ∧
    (a.with_args args).cmd ≠ [] ∧
    (a.current_dir' dir).cmd ≠ [] ∧
    a.and.cmd ≠ [] ∧
    a.succeeds.cmd ≠ [] ∧
    a.fails.cmd ≠ [] ∧
    (a.fails_with n).cmd ≠ [] ∧
    (a.stdout.contains text).cmd ≠ [] ∧
    (a.stdout.is text).cmd ≠ [] ∧
    (a.stderr.doesnt_contain text).cmd ≠ [] ∧
    (a.stderr.isnt text).cmd ≠ [] ∧
    (∀ b : Assert, b.cmd ≠ [] → b.executable?.isSome = true) := by
  refine ⟨by simp [Assert.default], by simp [Assert.main_binary, Assert.default],
    by simp [Assert.cargo_binary, Assert.default], by simpa [Assert.command] using hl,
    ?_, ha, ha, ha, ha, ha, ha, ha, ha, ha, ?_⟩
  · intro h
    exact ha (List.append_eq_nil.mp h).1
  · intro b hb
    cases hcmd : b.cmd with
    | nil => exact absurd hcmd hb
    | cons x xs => simp [Assert.executable?, hcmd]

/-- C3 (amended) witness: the amended claim at a concrete non-empty argv. -/
theorem C3_cmd_nonempty_amended_witness :
    ((["echo"] : List String) ≠ []) ∧ ((Assert.command ["echo"]).cmd ≠ []) ∧
    ((Assert.command ["echo"]).fails.cmd ≠ []) := by
  obtain ⟨h1, h2, h3, h4, h5, h6, h7, h8, h9, h10, h11, h12, h13, h14, h15⟩ :=
    C3_cmd_nonempty_amended "bin" ["echo"] (List.cons_ne_nil _ _)
      (Assert.command ["echo"]) (List.cons_ne_nil _ _) ["x"] "dir" "txt" 1
  exact ⟨List.cons_ne_nil _ _, h4, h9⟩

/-- C4: once the status check has passed, a present `expect_exit_code = some n`
passes exactly when the actual code is `some n` — an absent actual code always
mismatches — and on mismatch `executeWith` returns the `ExitCodeMismatch`
diagnostic carrying argv, the optional expected code, the optional actual
code, and both captured streams. -/
theorem C4_exit_code_check (a : Assert) (output : ProcessOutput) (n : Int)
    (hcode : a.expect_exit_code = some n)
    (hstatus : a.statusCheck output = Except.ok ()) :
    (a.exitCodeCheck output = Except.ok () ↔ output.status_code = some n) ∧
    (output.status_code ≠ some n →
      a.executeWith output = Except.error (ErrorKind.ExitCodeMismatch a.cmd (some n)
        output.status_code output.stdout output.stderr)) := by
  constructor
  · unfold Assert.exitCodeCheck
    rw [hcode]
    by_cases h : output.status_code = some n
    · simp [h]
    · simp [h, Ne.symm h]
  · intro hne
    unfold Assert.executeWith
    rw [hstatus]
    unfold Assert.exitCodeCheck
    rw [hcode]
    simp [hne, Ne.symm hne]

/-- C4 witness: expecting exit code 1 while the process terminated abnormally
(no exit code) is a mismatch, reported with both streams. -/
theorem C4_exit_code_check_witness :
    (((Assert.command ["x"]).fails_with 1).expect_exit_code = some 1) ∧
    (((Assert.command ["x"]).fails_with 1).statusCheck ⟨"out", "err", false, none⟩ =
      Except.ok ()) ∧
    (((Assert.command ["x"]).fails_with 1).executeWith ⟨"out", "err", false, none⟩ =
      Except.error (ErrorKind.ExitCodeMismatch ["x"] (some 1) none "out" "err")) := by
  refine ⟨rfl, rfl, ?_⟩
  exact (C4_exit_code_check ((Assert.command ["x"]).fails_with 1)
    ⟨"out", "err", false, none⟩ 1 rfl rfl).2 (by simp)

/-- C5: `succeeds()` sets `expect_success = some true` and clears any
previously set `expect_exit_code`. -/
theorem C5_succeeds (a : Assert) :
    a.succeeds.expect_success = some true ∧ a.succeeds.expect_exit_code = none :=
  ⟨rfl, rfl⟩

/-- C6: `fails()` sets `expect_success = some false` and leaves
`expect_exit_code`, `cmd`, `current_dir` and the predicate sequence
unchanged. -/
theorem C6_fails_frame (a : Assert) :
    a.fails.expect_success = some false ∧
    a.fails.expect_exit_code = a.expect_exit_code ∧
    a.fails.cmd = a.cmd ∧
    a.fails.current_dir = a.current_dir ∧
    a.fails.expect_output = a.expect_output :=
  ⟨rfl, rfl, rfl, rfl, rfl⟩

/-- C7: on every builder state and input, `doesnt_contain x` equals
`not().contains x` and `isnt x` equals `not().is x`. -/
theorem C7_sugar (b : OutputAssertionBuilder) (x : String) :
    b.doesnt_contain x = b.not.contains x ∧ b.isnt x = b.not.is x :=
  ⟨rfl, rfl⟩

/-- C8: all three construction entry points produce
`expect_success = some true`, `expect_exit_code = none`, and an empty
predicate sequence. -/
theorem C8_constructors_expect_success (name : String) (l : List String) :
    (Assert.default.expect_success = some true ∧
      Assert.default.expect_exit_code = none ∧
      Assert.default.expect_output = []) ∧
    (Assert.main_binary.expect_success = some true ∧
      Assert.main_binary.expect_exit_code = none ∧
      Assert.main_binary.expect_output = []) ∧
    ((Assert.cargo_binary name).expect_success = some true ∧
      (Assert.cargo_binary name).expect_exit_code = none ∧
      (Assert.cargo_binary name).expect_output = []) ∧
    ((Assert.command l).expect_success = some true ∧
      (Assert.command l).expect_exit_code = none ∧
      (Assert.command l).expect_output = []) :=
  ⟨⟨rfl, rfl, rfl⟩, ⟨rfl, rfl, rfl⟩, ⟨rfl, rfl, rfl⟩, rfl, rfl, rfl⟩

/-- C9: `stdout()`/`stderr()` build an `OutputAssertionBuilder` on the chosen
stream with `expected_result = true`; `not()` flips that flag; and a finalizer
reached after `n` `not()` calls appends a predicate whose `expected_result` is
true exactly when `n` is even. -/
theorem C9_not_parity (a : Assert) (n : Nat) (x : String) :
    a.stdout.kind = OutputKind.StdOut ∧ a.stdout.expected_result = true ∧
    a.stdout.assertion = a ∧
    a.stderr.kind = OutputKind.StdErr ∧ a.stderr.expected_result = true ∧
    a.stderr.assertion = a ∧
    (∀ b : OutputAssertionBuilder, b.not.expected_result = !b.expected_result) ∧
    ((iterateNot n a.stdout).contains x).expect_output =
      a.expect_output ++
        [{ expect := x, fuzzy := true, expected_result := decide (n % 2 = 0),
           kind := OutputKind.StdOut }] := by
  refine ⟨rfl, rfl, rfl, rfl, rfl, rfl, fun b => rfl, ?_⟩
  rw [iterateNot_eq]
  rcases Nat.mod_two_eq_zero_or_one n with h | h <;>
    simp [h, OutputAssertionBuilder.contains, Assert.stdout]

/-- C10: each finalizer appends exactly one predicate at the end of the
parent's `expect_output` (fuzzy for `contains`, exact for `is`, with the
builder's stream and current expected-result flag) and leaves `cmd`,
`current_dir`, `expect_success`, `expect_exit_code` and all earlier
predicates unchanged. -/
theorem C10_finalizer_frame (b : OutputAssertionBuilder) (text : String) :
    (b.contains text).expect_output = b.assertion.expect_output ++
      [{ expect := text, fuzzy := true, expected_result := b.expected_result,
         kind := b.kind }] ∧
    (b.is text).expect_output = b.assertion.expect_output ++
      [{ expect := text, fuzzy := false, expected_result := b.expected_result,
         kind := b.kind }] ∧
    (b.contains text).cmd = b.assertion.cmd ∧
    (b.contains text).current_dir = b.assertion.current_dir ∧
    (b.contains text).expect_success = b.assertion.expect_success ∧
    (b.contains text).expect_exit_code = b.assertion.expect_exit_code ∧
    (b.is text).cmd = b.assertion.cmd ∧
    (b.is text).current_dir = b.assertion.current_dir ∧
    (b.is text).expect_success = b.assertion.expect_success ∧
    (b.is text).expect_exit_code = b.assertion.expect_exit_code :=
  ⟨rfl, rfl, rfl, rfl, rfl, rfl, rfl, rfl, rfl, rfl⟩
